import Mathlib

/-!
# Verification of the rusty_ssg Markdown-to-HTML pipeline

A shallow embedding of `src/main.rs` of the `rusty_ssg` static site
generator, together with proofs settling the specification claims.

Paths are modelled as UTF-8 strings with `/` as separator (the pipeline
runs on Linux paths and every path the program builds is valid UTF-8).
External crates (`pulldown_cmark`, `tera`, `walkdir`, `std::fs`) are
modelled from the specification where noted, since their sources are not
part of this repository; all functions written by the repository itself
(`convert_files`, `convert_file_to_html`, `convert_md_text_to_html`,
`render_page`, `create_and_write_file`, `output_html_path`) are
translated directly from `src/main.rs`.
-/

namespace RustySsg

/-! ## Path model (std::path semantics on `/`-separated strings) -/

/-- Split a character list on `/`, the path separator (kernel-reducible
analogue of `String.splitOn "/"`). -/
def splitOnSlash : List Char → List (List Char)
  | [] => [[]]
  | c :: t =>
    let r := splitOnSlash t
    if c = '/' then [] :: r
    else
      match r with
      | [] => [[c]]
      | h :: t' => (c :: h) :: t'

/-- Path components in the sense of `std::path::Components`: split on `/`,
dropping empty components (doubled or trailing separators) and `.`
(current-directory) components, which Rust normalises away. -/
def pathComponents (p : String) : List String :=
  ((splitOnSlash p.toList).map String.mk).filter (fun c => c ≠ "" ∧ c ≠ ".")

/-- `Path::file_name`: the last path component, unless it is `..` (or the
path has no normal final component, e.g. `""`, `"/"`, `".."`). -/
def pathFileName (p : String) : Option String :=
  match (pathComponents p).getLast? with
  | none => none
  | some c => if c = ".." then none else some c

/-- Index of the last `.` at position ≥ 1 in a file name, the split point
used by `Path::file_stem` / `Path::extension` (a leading dot, as in
`.gitignore`, does not start an extension). -/
def lastDotPos (cs : List Char) : Option Nat :=
  (List.range cs.length).foldl
    (fun acc i => if 1 ≤ i ∧ cs.get? i = some '.' then some i else acc) none

/-- Split a file name into the `file_stem` part and the optional
`extension` part, following `std::path`. -/
def splitDot (s : String) : String × Option String :=
  let cs := s.toList
  match lastDotPos cs with
  | none => (s, none)
  | some i => (String.mk (cs.take i), some (String.mk (cs.drop (i + 1))))

/-- `Path::file_stem` of a path. -/
def pathFileStem (p : String) : Option String :=
  (pathFileName p).map (fun n => (splitDot n).1)

/-- `Path::extension().and_then(OsStr::to_str)` of a path: the extension
as a string, compared case-sensitively by callers. -/
def pathExtension (p : String) : Option String :=
  (pathFileName p).bind (fun n => (splitDot n).2)

/-- `Path::join` for the relative file names this program produces (the
joined name never begins with `/`). -/
def pathJoin (dir name : String) : String :=
  if dir = "" then name
  else if dir.toList.getLast? = some '/' then dir ++ name
  else dir ++ "/" ++ name

/-- `Path::parent`: the path with its final component removed; `none` for
the empty path and the root. (Faithful on the separator-normalised paths
this program builds, which never end in `/`.) -/
def pathParent (p : String) : Option String :=
  if p = "" ∨ p = "/" then none
  else
    let cs := p.toList
    match lastSlash cs with
    | none => some ""
    | some i => if i = 0 then some "/" else some (String.mk (cs.take i))
where
  /-- index of the last `/` in the character list, if any -/
  lastSlash (cs : List Char) : Option Nat :=
    (List.range cs.length).foldl
      (fun acc i => if cs.get? i = some '/' then some i else acc) none

/-! ## Substring counting (for the testable HTML properties) -/

/-- Number of positions in `s` at which `pat` occurs as a contiguous
substring (all positions, including overlapping ones). -/
def countOcc (pat : List Char) : List Char → Nat
  | [] => 0
  | c :: t => (if pat.isPrefixOf (c :: t) then 1 else 0) + countOcc pat t

/-- `countOcc` on strings. -/
def countOccS (pat s : String) : Nat :=
  countOcc pat.toList s.toList

/-! ## MarkdownConverter -/

/-- Split a character list into blocks separated by blank lines
(the two-character sequence `\n\n`). -/
def splitBlocks : List Char → List (List Char)
  | [] => [[]]
  | '\n' :: '\n' :: t => [] :: splitBlocks t
  | c :: t =>
    match splitBlocks t with
    | [] => [[c]]
    | h :: r => (c :: h) :: r

/-- Render one Markdown block as HTML: an ATX level-1 heading becomes
`<h1>…</h1>`, any other non-empty block a paragraph `<p>…</p>`. -/
def renderBlock (b : List Char) : List Char :=
  match b with
  | '#' :: ' ' :: rest => "<h1>".toList ++ rest ++ "</h1>".toList
  | _ => "<p>".toList ++ b ++ "</p>".toList

/-- Modelled from the spec: the `pulldown_cmark` Markdown-to-HTML
conversion used by `convert_md_text_to_html` (the crate's source is not
part of this repository). Per §4.2 the converter maps raw Markdown text
to an HTML fragment with no `<html>`/`<head>` wrapper, is pure and total,
and supports at least headings and paragraphs; each rendered block is
followed by a newline, matching the fragment recorded in the repository's
own test (`<h1>Hello</h1>\n<p>This is a test.</p>\n`). -/
def convert_markdown (s : String) : String :=
  String.mk
    (((splitBlocks s.toList).filter (fun b => b ≠ [])).foldr
      (fun b acc => renderBlock b ++ '\n' :: acc) [])

/-! ## TemplateRenderer (tera) -/

/-- Replace every occurrence of `pat` by `rep` in `s`, scanning left to
right; `fuel` bounds the recursion (callers pass the input length). -/
def replaceAllF : Nat → List Char → List Char → List Char → List Char
  | 0, _, _, s => s
  | fuel + 1, pat, rep, s =>
    match s with
    | [] => []
    | c :: t =>
      if pat ≠ [] ∧ pat.isPrefixOf (c :: t) then
        rep ++ replaceAllF fuel pat rep ((c :: t).drop pat.length)
      else
        c :: replaceAllF fuel pat rep t

/-- Replace every occurrence of `pat` by `rep` in `s`. -/
def replaceAll (pat rep s : String) : String :=
  String.mk (replaceAllF s.toList.length pat.toList rep.toList s.toList)

/-- HTML-escape a string (tera's default escaping for `.html` templates):
`&`, `<`, `>` and `"` become entity references. -/
def htmlEscape (s : String) : String :=
  String.mk
    (s.toList.foldr
      (fun c acc =>
        if c = '&' then "&amp;".toList ++ acc
        else if c = '<' then "&lt;".toList ++ acc
        else if c = '>' then "&gt;".toList ++ acc
        else if c = '"' then "&quot;".toList ++ acc
        else c :: acc)
      [])

/-- Modelled from the spec: tera's rendering of one template against a
context binding `title` and `content` (the crate's source and the
template files are not part of this repository). Per §4.3 and the
template contract in §6, the template declares a `title` substitution
point (escaped, tera's default) and a `content` substitution point
inserted unescaped; the placeholder syntax is the one the repository's
own tests use. -/
def renderTera (tmpl title content : String) : String :=
  replaceAll "{{ content | safe }}" content
    (replaceAll "{{ title }}" (htmlEscape title) tmpl)

/-- Association-list lookup by string key (used for the template set, the
readable files of the world, and the output filesystem). -/
def lookupAssoc {α : Type} (k : String) : List (String × α) → Option α
  | [] => none
  | p :: t => if p.1 = k then some p.2 else lookupAssoc k t

/-! ## The program's own functions (translated from src/main.rs) -/

/-- The `SitePaths` struct of `src/main.rs`. -/
structure SitePaths where
  content_path : String
  template_path : String
  output_path : String
  base_template : String

/-- The result of `Tera::new(&site_paths.template_path)`: either a load
error or the loaded template set (name ↦ template text). This is an
input to the model because it depends on the template files on disk. -/
def TeraLoad := Except String (List (String × String))

/-- `render_page` of `src/main.rs`: construct Tera from the template
location (propagating a load error with `?`), then render the base
template with `title = "The Title"` and `content = html_output`
(propagating a render error with `?`). -/
def render_page (sp : SitePaths) (teraLoad : TeraLoad) (html_output : String) :
    Except String String := do
  let tera ← (teraLoad : Except String (List (String × String)))
  match lookupAssoc sp.base_template tera with
  | none => Except.error ("Template " ++ sp.base_template ++ " not found")
  | some tmpl => Except.ok (renderTera tmpl "The Title" html_output)

/-- `output_html_path` of `src/main.rs`: join the output directory with
the source file's stem plus `.html`; `none` models the `panic!` taken
when the path has no file stem. -/
def output_html_path (md_path : String) (output_dir : String) : Option String :=
  match pathFileStem md_path with
  | none => none
  | some stem => some (pathJoin output_dir (stem ++ ".html"))

/-! ## OutputWriter (std::fs) -/

/-- The output filesystem: the set of directories that exist and the
files with their contents. -/
structure FS where
  dirs : List String
  files : List (String × String)

/-- Modelled from the spec: `std::fs::create_dir_all` (standard library,
not in this repository) creates the given directory and every missing
ancestor, and is a no-op for directories that already exist. `fuel`
bounds the parent recursion; callers pass the path length plus one, which
dominates the ancestor-chain depth. -/
def createDirAllF : Nat → List String → String → List String
  | 0, dirs, _ => dirs
  | fuel + 1, dirs, d =>
    let dirs1 := if d = "" ∨ d ∈ dirs then dirs else dirs ++ [d]
    match pathParent d with
    | none => dirs1
    | some par => createDirAllF fuel dirs1 par

/-- `std::fs::create_dir_all` on the directory list of an `FS`. -/
def createDirAll (dirs : List String) (d : String) : List String :=
  createDirAllF (d.toList.length + 1) dirs d

/-- Update (or create) the file at `p` with content `c`, the effect of a
successful `File::create` followed by `write_all`. -/
def setFile : List (String × String) → String → String → List (String × String)
  | [], p, c => [(p, c)]
  | q :: t, p, c => if q.1 = p then (p, c) :: t else q :: setFile t p c

/-- The chain of a directory and its proper ancestors (excluding the
empty relative prefix), used to state that the writer ensures every
parent directory exists. -/
def ancestorChainF : Nat → String → List String
  | 0, _ => []
  | fuel + 1, d =>
    (if d = "" then [] else [d]) ++
      match pathParent d with
      | none => []
      | some par => ancestorChainF fuel par

/-- The directory and all its ancestors. -/
def ancestorChain (d : String) : List String :=
  ancestorChainF (d.toList.length + 1) d

/-- `create_and_write_file` of `src/main.rs`: create the parent
directories of `path` if it has a parent (propagating a creation error
with `?`), then create/truncate the file and write `content`, reporting a
write error to the caller. Paths in `writeFail` model destinations where
`File::create` or `write_all` fails. -/
def create_and_write_file (writeFail : List String) (fs : FS) (path content : String) :
    Except Unit FS :=
  let dirs1 :=
    match pathParent path with
    | some parent => createDirAll fs.dirs parent
    | none => fs.dirs
  if path ∈ writeFail then Except.error ()
  else Except.ok ⟨dirs1, setFile fs.files path content⟩

/-! ## FileDiscovery (walkdir) -/

/-- One directory entry as walkdir yields it: its path and whether its
file type is a regular file. -/
structure DirEntry where
  path : String
  is_file : Bool

/-- The discovery loop header of `convert_files` in `src/main.rs`:
`WalkDir::new(content_path)` yields a sequence of results (errors
possible); `.filter_map(|e| e.ok())` drops the errors, and the filter
keeps entries that are regular files whose
`extension().and_then(OsStr::to_str)` equals `Some("md")`. -/
def discovered (entries : List (Except Unit DirEntry)) : List String :=
  ((entries.filterMap Except.toOption).filter
    (fun e => e.is_file && (pathExtension e.path == some "md"))).map DirEntry.path

/-! ## Pipeline run model -/

/-- The external world one run sees: the walkdir entries under the
content root, the readable source files (`none` models a read error, as
does an absent path), the result of `Tera::new` on the template location,
and the destinations where writing fails. -/
structure World where
  entries : List (Except Unit DirEntry)
  reads : List (String × Option String)
  teraLoad : Except String (List (String × String))
  writeFail : List String

/-- `fs::read_to_string` against the world. -/
def readFile (w : World) (p : String) : Option String :=
  match lookupAssoc p w.reads with
  | some r => r
  | none => none

/-- Observable state accumulated by one run: the output filesystem, the
successful writes in order, the number of `Tera::new` invocations, the
paths passed to `fs::read_to_string` in order, the number of Markdown
conversions performed, and whether the process panicked (which aborts
the run). -/
structure RunState where
  fs : FS
  writes : List (String × String)
  loads : Nat
  readAttempts : List String
  converted : Nat
  panicMsg : Option String

/-- The state at process start. -/
def initState : RunState :=
  ⟨⟨[], []⟩, [], 0, [], 0, none⟩

/-- `convert_md_text_to_html` of `src/main.rs`: convert the Markdown text
to HTML, call `render_page` (one `Tera::new` per call) and `panic!` on a
render error, compute the destination with `output_html_path` (which
panics when the path has no stem), then `create_and_write_file`, printing
and ignoring a write error. -/
def convert_md_text_to_html (sp : SitePaths) (w : World) (st : RunState)
    (md_file_path markdown_text : String) : RunState :=
  let html_output := convert_markdown markdown_text
  let st1 := { st with converted := st.converted + 1, loads := st.loads + 1 }
  match render_page sp w.teraLoad html_output with
  | Except.error e => { st1 with panicMsg := some ("Error rendering template: " ++ e) }
  | Except.ok rendered =>
    match output_html_path md_file_path sp.output_path with
    | none => { st1 with panicMsg := some ("Path has no file stem: " ++ md_file_path) }
    | some output_file =>
      match create_and_write_file w.writeFail st1.fs output_file rendered with
      | Except.error _ => st1
      | Except.ok fs' =>
        { st1 with fs := fs', writes := st1.writes ++ [(output_file, rendered)] }

/-- `convert_file_to_html` of `src/main.rs`: read the source file, print
and skip on a read error, otherwise hand the text to
`convert_md_text_to_html`. -/
def convert_file_to_html (sp : SitePaths) (w : World) (st : RunState)
    (md_file_path : String) : RunState :=
  let st0 := { st with readAttempts := st.readAttempts ++ [md_file_path] }
  match readFile w md_file_path with
  | none => st0
  | some markdown_text => convert_md_text_to_html sp w st0 md_file_path markdown_text

/-- One iteration of the discovery loop; a panic aborts the rest of the
run, so a panicked state is left unchanged. -/
def stepFn (sp : SitePaths) (w : World) (st : RunState) (p : String) : RunState :=
  if st.panicMsg.isSome then st else convert_file_to_html sp w st p

/-- `convert_files` of `src/main.rs`: process every discovered file in
order. -/
def convert_files (sp : SitePaths) (w : World) : RunState :=
  (discovered w.entries).foldl (stepFn sp w) initState

/-! ## Helper lemmas -/

lemma discovered_mem {entries : List (Except Unit DirEntry)} {p : String}
    (h : p ∈ discovered entries) :
    ∃ e : DirEntry, Except.ok e ∈ entries ∧ e.path = p ∧ e.is_file = true ∧
      pathExtension p = some "md" := by
  unfold discovered at h
  obtain ⟨e, he, hp⟩ := List.mem_map.mp h
  obtain ⟨he1, he2⟩ := List.mem_filter.mp he
  obtain ⟨r, hr, hro⟩ := List.mem_filterMap.mp he1
  have hre : r = Except.ok e := by
    cases r with
    | ok a => simpa [Except.toOption] using hro
    | error a => simp [Except.toOption] at hro
  subst hre
  refine ⟨e, hr, hp, ?_, ?_⟩
  · exact (Bool.and_eq_true ..).mp he2 |>.1
  · have := (Bool.and_eq_true ..).mp he2 |>.2
    rw [hp] at this
    exact beq_iff_eq.mp this

lemma pathFileStem_isSome_of_ext {p x : String} (h : pathExtension p = some x) :
    (pathFileStem p).isSome = true := by
  unfold pathExtension at h
  unfold pathFileStem
  cases hn : pathFileName p with
  | none => rw [hn] at h; simp at h
  | some n => simp

lemma render_page_ok {sp : SitePaths} {w : World} {ts : List (String × String)}
    {tmpl : String} (hts : w.teraLoad = Except.ok ts)
    (htm : lookupAssoc sp.base_template ts = some tmpl) (html : String) :
    render_page sp w.teraLoad html = Except.ok (renderTera tmpl "The Title" html) := by
  rw [render_page, hts]
  show (match lookupAssoc sp.base_template ts with
    | none => Except.error ("Template " ++ sp.base_template ++ " not found")
    | some tmpl => Except.ok (renderTera tmpl "The Title" html)) = _
  rw [htm]

lemma render_page_err_load {sp : SitePaths} {w : World} {e : String}
    (hts : w.teraLoad = Except.error e) (html : String) :
    render_page sp w.teraLoad html = Except.error e := by
  rw [render_page, hts]
  rfl

lemma render_page_err_missing {sp : SitePaths} {w : World} {ts : List (String × String)}
    (hts : w.teraLoad = Except.ok ts)
    (htm : lookupAssoc sp.base_template ts = none) (html : String) :
    render_page sp w.teraLoad html =
      Except.error ("Template " ++ sp.base_template ++ " not found") := by
  rw [render_page, hts]
  show (match lookupAssoc sp.base_template ts with
    | none => Except.error ("Template " ++ sp.base_template ++ " not found")
    | some tmpl => Except.ok (renderTera tmpl "The Title" html)) = _
  rw [htm]

/-- Per-file step under a loadable template set containing the base
template and a source path with a file stem: no panic, exactly one read
attempt, one template load per successful read, and any new write is to a
destination not in `writeFail`. -/
lemma convert_file_ok {sp : SitePaths} {w : World} {ts : List (String × String)}
    {tmpl : String} (hts : w.teraLoad = Except.ok ts)
    (htm : lookupAssoc sp.base_template ts = some tmpl)
    {p : String} (hstem : (output_html_path p sp.output_path).isSome = true)
    (st : RunState) (hp : st.panicMsg = none) :
    (convert_file_to_html sp w st p).panicMsg = none ∧
    (convert_file_to_html sp w st p).readAttempts = st.readAttempts ++ [p] ∧
    (convert_file_to_html sp w st p).loads =
      st.loads + (if (readFile w p).isSome then 1 else 0) ∧
    (∀ q ∈ (convert_file_to_html sp w st p).writes,
      q ∈ st.writes ∨ q.1 ∉ w.writeFail) := by
  cases hr : readFile w p with
  | none =>
    simp only [convert_file_to_html, hr]
    exact ⟨hp, trivial, by simp, fun q hq => Or.inl hq⟩
  | some text =>
    simp only [convert_file_to_html, convert_md_text_to_html, hr,
      render_page_ok hts htm]
    cases ho : output_html_path p sp.output_path with
    | none => rw [ho] at hstem; simp at hstem
    | some output_file =>
      simp only [ho, create_and_write_file]
      by_cases hw : output_file ∈ w.writeFail
      · simp only [hw, if_true, ite_true]
        exact ⟨hp, trivial, by simp, fun q hq => Or.inl hq⟩
      · simp only [hw, if_false, ite_false]
        refine ⟨hp, trivial, by simp, ?_⟩
        intro q hq
        rcases List.mem_append.mp hq with h | h
        · exact Or.inl h
        · right
          have hqe : q = (output_file, renderTera tmpl "The Title" (convert_markdown text)) := by
            simpa using h
          rw [hqe]
          exact hw

/-- Run invariant under a loadable template set containing the base
template, over source paths that all have file stems: the run never
panics, every path is passed to the reader in order, the template
location is loaded once per successful read, and writes only reach
writable destinations. -/
lemma foldl_ok {sp : SitePaths} {w : World} {ts : List (String × String)}
    {tmpl : String} (hts : w.teraLoad = Except.ok ts)
    (htm : lookupAssoc sp.base_template ts = some tmpl) :
    ∀ (ps : List String) (st : RunState), st.panicMsg = none →
      (∀ p ∈ ps, (output_html_path p sp.output_path).isSome = true) →
      (ps.foldl (stepFn sp w) st).panicMsg = none ∧
      (ps.foldl (stepFn sp w) st).readAttempts = st.readAttempts ++ ps ∧
      (ps.foldl (stepFn sp w) st).loads =
        st.loads + (ps.filter (fun p => (readFile w p).isSome)).length ∧
      (∀ q ∈ (ps.foldl (stepFn sp w) st).writes, q ∈ st.writes ∨ q.1 ∉ w.writeFail) := by
  intro ps
  induction ps with
  | nil =>
    intro st hp _
    exact ⟨hp, by simp, by simp, fun q hq => Or.inl hq⟩
  | cons p ps ih =>
    intro st hp hstem
    obtain ⟨h1, h2, h3, h4⟩ :=
      convert_file_ok hts htm (hstem p (List.mem_cons_self p ps)) st hp
    have hstepFn : stepFn sp w st p = convert_file_to_html sp w st p := by
      simp [stepFn, hp]
    rw [List.foldl_cons, hstepFn]
    obtain ⟨g1, g2, g3, g4⟩ :=
      ih (convert_file_to_html sp w st p) h1
        (fun q hq => hstem q (List.mem_cons_of_mem _ hq))
    refine ⟨g1, ?_, ?_, ?_⟩
    · rw [g2, h2, List.append_assoc]
      rfl
    · rw [g3, h3, List.filter_cons]
      cases hr : (readFile w p).isSome with
      | false => simp [hr]
      | true => simp [hr]; omega
    · intro q hq
      rcases g4 q hq with h | h
      · rcases h4 q h with h' | h'
        · exact Or.inl h'
        · exact Or.inr h'
      · exact Or.inr h

/-- Run invariant when every render attempt fails (template set unloadable
or base template missing): nothing is ever written, and the run panics at
the first file that reads successfully, immediately after its (single)
Markdown conversion. -/
lemma renderFail_foldl {sp : SitePaths} {w : World}
    (hf : ∀ html, ∃ e, render_page sp w.teraLoad html = Except.error e) :
    ∀ (ps : List String) (st : RunState),
      ((st.panicMsg = none ∧ st.converted = 0 ∧ st.writes = []) ∨
        (st.panicMsg.isSome = true ∧ st.converted = 1 ∧ st.writes = [])) →
      (((ps.foldl (stepFn sp w) st).panicMsg = none ∧
          (ps.foldl (stepFn sp w) st).converted = 0 ∧
          (ps.foldl (stepFn sp w) st).writes = []) ∨
        ((ps.foldl (stepFn sp w) st).panicMsg.isSome = true ∧
          (ps.foldl (stepFn sp w) st).converted = 1 ∧
          (ps.foldl (stepFn sp w) st).writes = [])) := by
  intro ps
  induction ps with
  | nil => exact fun st h => h
  | cons p ps ih =>
    intro st h
    rw [List.foldl_cons]
    apply ih
    rcases h with ⟨hp, hc, hw⟩ | ⟨hp, hc, hw⟩
    · have hstepFn : stepFn sp w st p = convert_file_to_html sp w st p := by
        simp [stepFn, hp]
      rw [hstepFn]
      cases hr : readFile w p with
      | none =>
        left
        simp only [convert_file_to_html, hr]
        exact ⟨hp, hc, hw⟩
      | some text =>
        obtain ⟨e, he⟩ := hf (convert_markdown text)
        right
        simp only [convert_file_to_html, convert_md_text_to_html, hr, he]
        exact ⟨rfl, by rw [hc], hw⟩
    · have hstepFn : stepFn sp w st p = st := by
        simp [stepFn, hp]
      rw [hstepFn]
      exact Or.inr ⟨hp, hc, hw⟩

/-- `createDirAllF` only adds directories: existing members stay. -/
lemma mem_createDirAllF_of_mem :
    ∀ (fuel : Nat) (dirs : List String) (d x : String),
      x ∈ dirs → x ∈ createDirAllF fuel dirs d := by
  intro fuel
  induction fuel with
  | zero => intro dirs d x hx; simpa [createDirAllF] using hx
  | succ f ih =>
    intro dirs d x hx
    have hx1 : x ∈ (if d = "" ∨ d ∈ dirs then dirs else dirs ++ [d]) := by
      by_cases h : d = "" ∨ d ∈ dirs
      · simpa [h] using hx
      · simp [h, List.mem_append, hx]
    cases hp : pathParent d with
    | none => simpa [createDirAllF, hp] using hx1
    | some par =>
      simp only [createDirAllF, hp]
      exact ih _ par x hx1

/-- `createDirAllF` creates the directory and its whole ancestor chain. -/
lemma chain_subset_createDirAllF :
    ∀ (fuel : Nat) (dirs : List String) (d x : String),
      x ∈ ancestorChainF fuel d → x ∈ createDirAllF fuel dirs d := by
  intro fuel
  induction fuel with
  | zero => intro dirs d x hx; simp [ancestorChainF] at hx
  | succ f ih =>
    intro dirs d x hx
    simp only [ancestorChainF, List.mem_append] at hx
    have hddirs1 : d = "" ∨ d ∈ (if d = "" ∨ d ∈ dirs then dirs else dirs ++ [d]) := by
      by_cases h : d = "" ∨ d ∈ dirs
      · rcases h with h | h
        · exact Or.inl h
        · simp [Or.inr h, h]
      · right
        simp [h]
    rcases hx with hx | hx
    · have hxd : x = d ∧ d ≠ "" := by
        by_cases h : d = ""
        · simp [h] at hx
        · simp [h] at hx; exact ⟨hx, h⟩
      obtain ⟨hxd, hdne⟩ := hxd
      subst hxd
      have hxin : x ∈ (if x = "" ∨ x ∈ dirs then dirs else dirs ++ [x]) := by
        rcases hddirs1 with h | h
        · exact absurd h hdne
        · exact h
      cases hp : pathParent x with
      | none => simpa [createDirAllF, hp] using hxin
      | some par =>
        simp only [createDirAllF, hp]
        exact mem_createDirAllF_of_mem f _ par x hxin
    · cases hp : pathParent d with
      | none => simp [hp] at hx
      | some par =>
        rw [hp] at hx
        simp only [createDirAllF, hp]
        exact ih _ par x hx

/-- Running `createDirAllF` a second time with the same target changes
nothing. -/
lemma createDirAllF_idem :
    ∀ (fuel : Nat) (dirs : List String) (d : String),
      createDirAllF fuel (createDirAllF fuel dirs d) d = createDirAllF fuel dirs d := by
  intro fuel
  induction fuel with
  | zero => intro dirs d; simp [createDirAllF]
  | succ f ih =>
    intro dirs d
    by_cases hd : d = ""
    · subst hd
      have hpe : pathParent "" = none := by decide
      simp [createDirAllF, hpe]
    · have hmem : d ∈ createDirAllF (f + 1) dirs d := by
        apply chain_subset_createDirAllF
        simp [ancestorChainF, hd]
      conv_lhs => rw [createDirAllF]
      have hins :
          (if d = "" ∨ d ∈ createDirAllF (f + 1) dirs d then createDirAllF (f + 1) dirs d
            else createDirAllF (f + 1) dirs d ++ [d]) = createDirAllF (f + 1) dirs d := by
        simp [hmem]
      rw [hins]
      cases hp : pathParent d with
      | none => simp [hp]
      | some par =>
        simp only [hp]
        have hX : createDirAllF (f + 1) dirs d =
            createDirAllF f (if d = "" ∨ d ∈ dirs then dirs else dirs ++ [d]) par := by
          rw [createDirAllF]
          simp only [hp]
        rw [hX]
        exact ih _ par

/-- Looking up the path just written yields the written content. -/
lemma lookupAssoc_setFile_self :
    ∀ (files : List (String × String)) (p c : String),
      lookupAssoc p (setFile files p c) = some c := by
  intro files
  induction files with
  | nil => intro p c; simp [setFile, lookupAssoc]
  | cons q t ih =>
    intro p c
    by_cases h : q.1 = p
    · simp [setFile, h, lookupAssoc]
    · simp [setFile, h, lookupAssoc, ih]

/-- Writing one path leaves every other path's content unchanged. -/
lemma lookupAssoc_setFile_other :
    ∀ (files : List (String × String)) (p c q : String), q ≠ p →
      lookupAssoc q (setFile files p c) = lookupAssoc q files := by
  intro files
  induction files with
  | nil =>
    intro p c q hq
    have h1 : ¬ p = q := fun h => hq h.symm
    simp [setFile, lookupAssoc, h1]
  | cons r t ih =>
    intro p c q hq
    have h1 : ¬ p = q := fun h => hq h.symm
    by_cases h : r.1 = p
    · have h2 : ¬ r.1 = q := by rw [h]; exact h1
      simp [setFile, h, lookupAssoc, h1, h2]
    · by_cases h2 : r.1 = q
      · simp [setFile, h, lookupAssoc, h2, hq]
      · simp [setFile, h, lookupAssoc, h2, ih p c q hq]

/-- Writing the same content twice is a no-op the second time. -/
lemma setFile_idem :
    ∀ (files : List (String × String)) (p c : String),
      setFile (setFile files p c) p c = setFile files p c := by
  intro files
  induction files with
  | nil => intro p c; simp [setFile]
  | cons q t ih =>
    intro p c
    by_cases h : q.1 = p
    · simp [setFile, h]
    · simp [setFile, h, ih]

/-! ## Concrete runs used by the counterexamples and witnesses -/

/-- The page template the repository's own tests install. -/
def exTemplate : String :=
  "<html><head><title>{{ title }}</title></head><body>{{ content | safe }}</body></html>"

/-- The `SitePaths` value `main` builds with the default CLI arguments
(output directory shortened to `output`, as in the spec's path law). -/
def exSitePaths : SitePaths :=
  ⟨"./content", "./templates/*.html", "output", "base.html"⟩

/-- Two readable Markdown files under the content root. -/
def exEntries : List (Except Unit DirEntry) :=
  [Except.ok ⟨"content/a.md", true⟩, Except.ok ⟨"content/b.md", true⟩]

/-- Readable contents for the two files. -/
def exReads : List (String × Option String) :=
  [("content/a.md", some "# A"), ("content/b.md", some "# B")]

/-- A healthy world: two readable files, loadable template set containing
the base template, all destinations writable. -/
def wReload : World :=
  ⟨exEntries, exReads, Except.ok [("base.html", exTemplate)], []⟩

/-- A world whose template set loads but does not contain the base
template, so every render call fails. -/
def wMissingTemplate : World :=
  ⟨exEntries, exReads, Except.ok [("other.html", exTemplate)], []⟩

/-- A world whose template set fails to load (`Tera::new` errors). -/
def wLoadError : World :=
  ⟨exEntries, exReads, Except.error "template parse error", []⟩

/-- Three discovered files: one readable, one that errors on read, one in
a subdirectory whose destination is unwritable. -/
def wMixed : World :=
  ⟨[Except.ok ⟨"content/a.md", true⟩, Except.ok ⟨"content/b.md", true⟩,
      Except.ok ⟨"content/sub/c.md", true⟩],
   [("content/a.md", some "# A"), ("content/sub/c.md", some "# C")],
   Except.ok [("base.html", exTemplate)], ["output/c.html"]⟩

/-! ## Claims -/

/-- C1, counterexample: the template set is NOT loaded exactly once per
run. In a healthy world with two discovered, readable files,
`Tera::new` runs twice — `render_page` reconstructs the renderer inside
every file's processing. -/
theorem claim_C1_counterexample :
    discovered wReload.entries = ["content/a.md", "content/b.md"] ∧
    (convert_files exSitePaths wReload).loads = 2 ∧
    ¬ (convert_files exSitePaths wReload).loads = 1 := by
  decide

/-- C1, amended: the template set is loaded once per processed file, not
once per run: whenever the template location loads and contains the base
template and every discovered path has a file stem, the number of
`Tera::new` invocations equals the number of discovered files whose read
succeeds. -/
theorem claim_C1_amended (sp : SitePaths) (w : World) (ts : List (String × String))
    (tmpl : String) (hts : w.teraLoad = Except.ok ts)
    (htm : lookupAssoc sp.base_template ts = some tmpl)
    (hstem : ∀ p ∈ discovered w.entries,
      (output_html_path p sp.output_path).isSome = true) :
    (convert_files sp w).loads =
      ((discovered w.entries).filter (fun p => (readFile w p).isSome)).length := by
  have h := (foldl_ok hts htm (discovered w.entries) initState rfl hstem).2.2.1
  simpa [convert_files, initState] using h

/-- C1, witness: the amended claim at the healthy two-file world. -/
theorem claim_C1_witness :
    wReload.teraLoad = Except.ok [("base.html", exTemplate)] ∧
    lookupAssoc exSitePaths.base_template [("base.html", exTemplate)] = some exTemplate ∧
    (∀ p ∈ discovered wReload.entries,
      (output_html_path p exSitePaths.output_path).isSome = true) ∧
    (convert_files exSitePaths wReload).loads =
      ((discovered wReload.entries).filter (fun p => (readFile wReload p).isSome)).length :=
  ⟨rfl, by decide, by decide,
    claim_C1_amended exSitePaths wReload [("base.html", exTemplate)] exTemplate rfl
      (by decide) (by decide)⟩

/-- C2, counterexample: a per-file render failure (base template missing
from the loaded set) does not skip just that file — the run panics: with
two discovered readable files, only the first is ever read, nothing is
written, and the run aborts. -/
theorem claim_C2_counterexample :
    discovered wMissingTemplate.entries = ["content/a.md", "content/b.md"] ∧
    (convert_files exSitePaths wMissingTemplate).panicMsg.isSome = true ∧
    (convert_files exSitePaths wMissingTemplate).readAttempts = ["content/a.md"] ∧
    (convert_files exSitePaths wMissingTemplate).writes = [] := by
  decide

/-- C2, amended: when rendering fails for that file's render call (base
template missing from the loaded set), the failure is fatal: the run
panics at the first file that reads successfully, at most that one file
is ever converted, no later discovered file is processed, and nothing is
written. -/
theorem claim_C2_amended (sp : SitePaths) (w : World) (ts : List (String × String))
    (hts : w.teraLoad = Except.ok ts)
    (htm : lookupAssoc sp.base_template ts = none) :
    (convert_files sp w).writes = [] ∧
    (convert_files sp w).converted ≤ 1 ∧
    ((convert_files sp w).panicMsg.isSome = true ↔ (convert_files sp w).converted = 1) := by
  have hf : ∀ html, ∃ e, render_page sp w.teraLoad html = Except.error e :=
    fun html => ⟨_, render_page_err_missing hts htm html⟩
  have h := renderFail_foldl hf (discovered w.entries) initState (Or.inl ⟨rfl, rfl, rfl⟩)
  unfold convert_files
  rcases h with ⟨h1, h2, h3⟩ | ⟨h1, h2, h3⟩
  · refine ⟨h3, ?_, ?_⟩
    · rw [h2]; exact Nat.zero_le 1
    · simp [h1, h2]
  · exact ⟨h3, le_of_eq h2, by simp [h1, h2]⟩

/-- C2, witness: the amended claim at the missing-template world. -/
theorem claim_C2_witness :
    wMissingTemplate.teraLoad = Except.ok [("other.html", exTemplate)] ∧
    lookupAssoc exSitePaths.base_template [("other.html", exTemplate)] = none ∧
    (convert_files exSitePaths wMissingTemplate).writes = [] ∧
    (convert_files exSitePaths wMissingTemplate).converted ≤ 1 ∧
    ((convert_files exSitePaths wMissingTemplate).panicMsg.isSome = true ↔
      (convert_files exSitePaths wMissingTemplate).converted = 1) :=
  ⟨rfl, by decide,
    claim_C2_amended exSitePaths wMissingTemplate [("other.html", exTemplate)] rfl
      (by decide)⟩

/-- C3, counterexample: when the template set fails to load, the run does
NOT abort before any discovered file is processed: the first file is
read and converted before the load is even attempted (the abort happens
inside that file's processing). -/
theorem claim_C3_counterexample :
    wLoadError.teraLoad = Except.error "template parse error" ∧
    (convert_files exSitePaths wLoadError).readAttempts = ["content/a.md"] ∧
    (convert_files exSitePaths wLoadError).converted = 1 :=
  ⟨rfl, by decide, by decide⟩

/-- C3, amended: when the template set fails to load, the run aborts
during the processing of the first discovered file that reads
successfully — after that file has been read and converted, since
`Tera::new` only runs inside `render_page` — and nothing is ever written
to the output root. -/
theorem claim_C3_amended (sp : SitePaths) (w : World) (e : String)
    (hts : w.teraLoad = Except.error e) :
    (convert_files sp w).writes = [] ∧
    (convert_files sp w).converted ≤ 1 ∧
    ((convert_files sp w).panicMsg.isSome = true ↔ (convert_files sp w).converted = 1) := by
  have hf : ∀ html, ∃ e', render_page sp w.teraLoad html = Except.error e' :=
    fun html => ⟨e, render_page_err_load hts html⟩
  have h := renderFail_foldl hf (discovered w.entries) initState (Or.inl ⟨rfl, rfl, rfl⟩)
  unfold convert_files
  rcases h with ⟨h1, h2, h3⟩ | ⟨h1, h2, h3⟩
  · refine ⟨h3, ?_, ?_⟩
    · rw [h2]; exact Nat.zero_le 1
    · simp [h1, h2]
  · exact ⟨h3, le_of_eq h2, by simp [h1, h2]⟩

/-- C3, witness: the amended claim at the failing-template-load world. -/
theorem claim_C3_witness :
    wLoadError.teraLoad = Except.error "template parse error" ∧
    (convert_files exSitePaths wLoadError).writes = [] ∧
    (convert_files exSitePaths wLoadError).converted ≤ 1 ∧
    ((convert_files exSitePaths wLoadError).panicMsg.isSome = true ↔
      (convert_files exSitePaths wLoadError).converted = 1) :=
  ⟨rfl, claim_C3_amended exSitePaths wLoadError "template parse error" rfl⟩

/-- C4: read errors and write errors are non-fatal and per-file. For any
world — whatever its read failures and unwritable destinations — as long
as the template set loads with the base template present and every
discovered path has a file stem, the run never panics, every discovered
file is still attempted in order, and no write ever lands on an
unwritable destination (failing files are skipped). -/
theorem claim_C4 (sp : SitePaths) (w : World) (ts : List (String × String))
    (tmpl : String) (hts : w.teraLoad = Except.ok ts)
    (htm : lookupAssoc sp.base_template ts = some tmpl)
    (hstem : ∀ p ∈ discovered w.entries,
      (output_html_path p sp.output_path).isSome = true) :
    (convert_files sp w).panicMsg = none ∧
    (convert_files sp w).readAttempts = discovered w.entries ∧
    (∀ q ∈ (convert_files sp w).writes, q.1 ∉ w.writeFail) := by
  have h := foldl_ok hts htm (discovered w.entries) initState rfl hstem
  unfold convert_files
  refine ⟨h.1, ?_, ?_⟩
  · rw [h.2.1]
    simp [initState]
  · intro q hq
    rcases h.2.2.2 q hq with hmem | hnot
    · simp [initState] at hmem
    · exact hnot

/-- C4, witness: a world with one readable file, one file whose read
fails, and one file whose destination is unwritable — the run continues
through all three. -/
theorem claim_C4_witness :
    wMixed.teraLoad = Except.ok [("base.html", exTemplate)] ∧
    lookupAssoc exSitePaths.base_template [("base.html", exTemplate)] = some exTemplate ∧
    (∀ p ∈ discovered wMixed.entries,
      (output_html_path p exSitePaths.output_path).isSome = true) ∧
    ((convert_files exSitePaths wMixed).panicMsg = none ∧
      (convert_files exSitePaths wMixed).readAttempts = discovered wMixed.entries ∧
      (∀ q ∈ (convert_files exSitePaths wMixed).writes, q.1 ∉ wMixed.writeFail)) :=
  ⟨rfl, by decide, by decide,
    claim_C4 exSitePaths wMixed [("base.html", exTemplate)] exTemplate rfl
      (by decide) (by decide)⟩

/-- C5: the destination path is the output root joined with the source
file's stem plus `.html`, flattening subdirectory structure; in
particular any path whose final component is `hello.md`, at any depth,
maps to `output/hello.html` under the output root `output`. -/
theorem claim_C5 :
    (∀ p out stem, pathFileStem p = some stem →
      output_html_path p out = some (pathJoin out (stem ++ ".html"))) ∧
    (∀ p, pathFileName p = some "hello.md" →
      output_html_path p "output" = some "output/hello.html") := by
  constructor
  · intro p out stem h
    unfold output_html_path
    rw [h]
  · intro p h
    have hs : pathFileStem p = some "hello" := by
      unfold pathFileStem
      rw [h]
      decide
    unfold output_html_path
    rw [hs]
    decide

/-- C5, witness: a doubly nested source file flattens to the output
root. -/
theorem claim_C5_witness :
    pathFileName "content/a/b/hello.md" = some "hello.md" ∧
    output_html_path "content/a/b/hello.md" "output" = some "output/hello.html" :=
  ⟨by decide, claim_C5.2 "content/a/b/hello.md" (by decide)⟩

/-- C6: every path discovery yields comes from an error-free walkdir
entry that is a regular file whose extension equals `md` (compared
case-sensitively as strings), and entries that error during traversal are
dropped without affecting the rest of the sequence. -/
theorem claim_C6 :
    (∀ (entries : List (Except Unit DirEntry)) (p : String), p ∈ discovered entries →
      ∃ e : DirEntry, Except.ok e ∈ entries ∧ e.path = p ∧ e.is_file = true ∧
        pathExtension p = some "md") ∧
    (∀ (es1 es2 : List (Except Unit DirEntry)) (err : Unit),
      discovered (es1 ++ Except.error err :: es2) = discovered (es1 ++ es2)) := by
  constructor
  · intro entries p hp
    exact discovered_mem hp
  · intro es1 es2 err
    simp [discovered, List.filterMap_append, List.filterMap_cons, Except.toOption]

/-- C6, witness: discovery over the two-file entry list yields
`content/a.md`, with its witnessing entry. -/
theorem claim_C6_witness :
    "content/a.md" ∈ discovered exEntries ∧
    (∃ e : DirEntry, Except.ok e ∈ exEntries ∧ e.path = "content/a.md" ∧
      e.is_file = true ∧ pathExtension "content/a.md" = some "md") :=
  ⟨by decide, claim_C6.1 exEntries "content/a.md" (by decide)⟩

/-- C7: converting `"# Hello\n\nThis is a test."` yields a fragment
containing `<h1>Hello</h1>` exactly once and `<p>This is a test.</p>`
exactly once, with no wrapping `<html>` tag (the converter is a total
function, so conversion never fails). -/
theorem claim_C7 :
    countOccS "<h1>Hello</h1>" (convert_markdown "# Hello\n\nThis is a test.") = 1 ∧
    countOccS "<p>This is a test.</p>" (convert_markdown "# Hello\n\nThis is a test.") = 1 ∧
    countOccS "<html>" (convert_markdown "# Hello\n\nThis is a test.") = 0 := by
  decide

/-- C8: rendering the fragment `<h1>Hello</h1><p>World</p>` against the
loaded base template produces a full document whose title binding is the
fixed placeholder `The Title` and which contains the fragment verbatim —
`content` is inserted unescaped, so the document contains
`<title>The Title</title>`, `<h1>Hello</h1>` and `<p>World</p>` and no
`&lt;` substitution anywhere. -/
theorem claim_C8 :
    render_page exSitePaths wReload.teraLoad "<h1>Hello</h1><p>World</p>" =
      Except.ok (renderTera exTemplate "The Title" "<h1>Hello</h1><p>World</p>") ∧
    0 < countOccS "<title>The Title</title>"
        (renderTera exTemplate "The Title" "<h1>Hello</h1><p>World</p>") ∧
    0 < countOccS "<h1>Hello</h1>"
        (renderTera exTemplate "The Title" "<h1>Hello</h1><p>World</p>") ∧
    0 < countOccS "<p>World</p>"
        (renderTera exTemplate "The Title" "<h1>Hello</h1><p>World</p>") ∧
    countOccS "&lt;" (renderTera exTemplate "The Title" "<h1>Hello</h1><p>World</p>") = 0 := by
  refine ⟨render_page_ok rfl (by decide) _, by decide, by decide, by decide, by decide⟩

/-- C9: on a successful return, `create_and_write_file` has first created
the destination's parent directory and all of its ancestors, and the file
at the destination contains exactly the given text, with every other file
untouched (writing overwrites any previous content at that path); the
whole operation is idempotent — running it again on the result succeeds
and changes nothing. -/
theorem claim_C9 (writeFail : List String) (fs : FS) (p content : String) (fs' : FS)
    (h : create_and_write_file writeFail fs p content = Except.ok fs') :
    lookupAssoc p fs'.files = some content ∧
    (∀ q, q ≠ p → lookupAssoc q fs'.files = lookupAssoc q fs.files) ∧
    (∀ parent, pathParent p = some parent →
      ∀ d ∈ ancestorChain parent, d ∈ fs'.dirs) ∧
    create_and_write_file writeFail fs' p content = Except.ok fs' := by
  unfold create_and_write_file at h
  by_cases hw : p ∈ writeFail
  · simp [hw] at h
  · simp only [hw, if_false, ite_false] at h
    have hfs : (FS.mk
        (match pathParent p with
          | some parent => createDirAll fs.dirs parent
          | none => fs.dirs)
        (setFile fs.files p content)) = fs' := (Except.ok.injEq _ _).mp h
    subst hfs
    refine ⟨lookupAssoc_setFile_self fs.files p content, ?_, ?_, ?_⟩
    · intro q hq
      exact lookupAssoc_setFile_other fs.files p content q hq
    · intro parent hpar d hd
      simp only [hpar]
      exact chain_subset_createDirAllF _ _ _ d hd
    · unfold create_and_write_file
      simp only [hw, if_false, ite_false]
      cases hpar : pathParent p with
      | none => simp [hpar, setFile_idem]
      | some parent => simp [hpar, setFile_idem, createDirAllF_idem, createDirAll]

/-- C9, witness: writing into an empty filesystem at a nested destination
creates both ancestor directories and stores exactly the text. -/
theorem claim_C9_witness :
    create_and_write_file [] (FS.mk [] []) "output/sub/hello.html" "x" =
      Except.ok (FS.mk ["output/sub", "output"] [("output/sub/hello.html", "x")]) ∧
    lookupAssoc "output/sub/hello.html" [("output/sub/hello.html", "x")] = some "x" :=
  ⟨rfl,
    (claim_C9 [] (FS.mk [] []) "output/sub/hello.html" "x"
      (FS.mk ["output/sub", "output"] [("output/sub/hello.html", "x")]) rfl).1⟩

/-- C10: every discovered path has a file stem, so `output_html_path`
returns a destination normally for all of them — the panic branch is
unreachable under discovery's guarantee — while inputs with no file stem
(the empty string, `..`) take the panic branch. -/
theorem claim_C10 :
    (∀ (entries : List (Except Unit DirEntry)) (p out : String),
      p ∈ discovered entries → (output_html_path p out).isSome = true) ∧
    output_html_path "" "output" = none ∧
    output_html_path ".." "output" = none := by
  refine ⟨?_, by decide, by decide⟩
  intro entries p out hp
  obtain ⟨e, -, -, -, hext⟩ := discovered_mem hp
  have hstem := pathFileStem_isSome_of_ext hext
  unfold output_html_path
  cases hs : pathFileStem p with
  | none => rw [hs] at hstem; simp at hstem
  | some stem => simp

/-- C10, witness: a discovered path maps to a destination without
panicking. -/
theorem claim_C10_witness :
    "content/a.md" ∈ discovered exEntries ∧
    (output_html_path "content/a.md" "output").isSome = true :=
  ⟨by decide, claim_C10.1 exEntries "content/a.md" "output" (by decide)⟩

end RustySsg
